import Mathlib

/-!
A verification development for the go-digikey request pipeline.

The Go sources are embedded shallowly:

* timestamps are modelled as `Int` seconds (Go `time.Time` comparisons
  `a.After b` / `a.Before b` become `a > b` / `a < b`);
* Go `int` fields become `Int`;
* stateful methods become explicit state-passing functions, with the
  current wall-clock time `now` passed as an argument where the Go code
  calls `time.Now()`;
* the network is modelled as a scripted environment (`Env`): the k-th
  data request send receives `Env.resp k`, and the k-th OAuth token
  exchange receives `Env.exch k`;
* cancellation (`context.Context`) is out of the modelled fragment: the
  runs considered here are never cancelled, so `sleep` always succeeds
  and only advances the clock.

Functions present in the provided Go sources (rate_limiter, auth.go,
client.go, products.go) are translated from that code.  A few helpers
are only called from the provided sources (their own definitions appear
nowhere in the sources, only their callers and tests): those carry a
doc comment starting with `Modelled from the spec:`.
-/

namespace Digikey

/-- Locale carried in request headers (types.go `Locale`). -/
structure Locale where
  Site : String
  Language : String
  Currency : String
deriving Repr, DecidableEq

/-- RateLimitError (errors.go): details about a rate limit violation.
The Go `ResetAt` field is an RFC3339-formatted string of the reset
timestamp; we keep the timestamp itself.  The Go field `Type` ("minute"
or "day") is named `Ty` here because `Type` is reserved in Lean. -/
structure RateLimitError where
  Limit : Int
  Remaining : Int
  ResetAt : Int
  Ty : String
deriving Repr, DecidableEq

/-- RateLimiter state (rate_limiter source): two independent fixed
windows with lazy reset. -/
structure RateLimiter where
  minuteCount : Int
  minuteResetTime : Int
  dayCount : Int
  dayResetTime : Int
  minuteLimit : Int
  dayLimit : Int
deriving Repr, DecidableEq

/-- NewRateLimiterWithLimits: fresh limiter with custom limits,
constructed at time `now` (counts zero, minute window resets at
`now+60`, day window at `now+86400`). -/
def NewRateLimiterWithLimits (minuteLimit dayLimit : Int) (now : Int) : RateLimiter :=
  { minuteCount := 0
    dayCount := 0
    minuteLimit := minuteLimit
    dayLimit := dayLimit
    minuteResetTime := now + 60
    dayResetTime := now + 86400 }

/-- NewRateLimiter: default Digi-Key limits (120/minute, 1000/day). -/
def NewRateLimiter (now : Int) : RateLimiter :=
  NewRateLimiterWithLimits 120 1000 now

/-- Allow (rate_limiter source): lazily reset any window whose reset
time has passed, then check the minute window first, then the day
window; on success increment both counts.  Returns the error (if any)
and the updated limiter state. -/
def RateLimiter.Allow (r : RateLimiter) (now : Int) : Option RateLimitError × RateLimiter :=
  let r := if now > r.minuteResetTime then
    { r with minuteCount := 0, minuteResetTime := now + 60 } else r
  let r := if now > r.dayResetTime then
    { r with dayCount := 0, dayResetTime := now + 86400 } else r
  if r.minuteCount ≥ r.minuteLimit then
    (some { Limit := r.minuteLimit, Remaining := 0, ResetAt := r.minuteResetTime, Ty := "minute" }, r)
  else if r.dayCount ≥ r.dayLimit then
    (some { Limit := r.dayLimit, Remaining := 0, ResetAt := r.dayResetTime, Ty := "day" }, r)
  else
    (none, { r with minuteCount := r.minuteCount + 1, dayCount := r.dayCount + 1 })

/-- RateLimitStats (rate_limiter source): snapshot of current usage. -/
structure RateLimitStats where
  MinuteLimit : Int
  MinuteUsed : Int
  MinuteRemaining : Int
  MinuteResetAt : Int
  DayLimit : Int
  DayUsed : Int
  DayRemaining : Int
  DayResetAt : Int
deriving Repr, DecidableEq

/-- Stats (rate_limiter source): computes the snapshot from local
copies of the counts, zeroing a count whose window has passed; the Go
method writes no field of the receiver. -/
def RateLimiter.Stats (r : RateLimiter) (now : Int) : RateLimitStats :=
  let minuteCount := if now > r.minuteResetTime then 0 else r.minuteCount
  let dayCount := if now > r.dayResetTime then 0 else r.dayCount
  { MinuteLimit := r.minuteLimit
    MinuteUsed := minuteCount
    MinuteRemaining := r.minuteLimit - minuteCount
    MinuteResetAt := r.minuteResetTime
    DayLimit := r.dayLimit
    DayUsed := dayCount
    DayRemaining := r.dayLimit - dayCount
    DayResetAt := r.dayResetTime }

/-- Stats as a state transformer: the Go method takes the lock, reads
the fields into locals and writes nothing, so the post-state is the
receiver unchanged. -/
def RateLimiter.StatsSt (r : RateLimiter) (now : Int) : RateLimitStats × RateLimiter :=
  (r.Stats now, r)

/-- UpdateFromResponse (rate_limiter source): a no-op when
`retryAfterSeconds ≤ 0`; otherwise forces the minute count to the
minute limit and the minute reset time to `now + retryAfterSeconds`.
The day window is untouched. -/
def RateLimiter.UpdateFromResponse (r : RateLimiter) (retryAfterSeconds : Int) (now : Int) :
    RateLimiter :=
  if retryAfterSeconds ≤ 0 then r
  else { r with minuteCount := r.minuteLimit, minuteResetTime := now + retryAfterSeconds }

/-- Iterated Allow: `allowTimes n r now` performs `n` consecutive
`Allow` calls at time `now`, stopping early at the first failure.
Returns the final limiter state and whether all `n` calls succeeded. -/
def allowTimes : Nat → RateLimiter → Int → RateLimiter × Bool
  | 0, r, _ => (r, true)
  | n + 1, r, now =>
    match r.Allow now with
    | (none, r') => allowTimes n r' now
    | (some _, r') => (r', false)

/-- Result of one OAuth2 token-exchange network request (the POST in
auth.go `refreshToken`, auth.go:79-111), as seen by the caller after
response classification:
* `success tok tin` — HTTP 200 with body `{access_token: tok, expires_in: tin}`;
* `authFailure e d` — non-200 whose body parses to `{error: e, error_description: d}` with `e ≠ ""`;
* `apiFailure s b` — other non-200 with status `s` and raw body `b`;
* `transportFailure t` — the request itself failed (`t` = the Go error
  is a timeout/temporary network error). -/
inductive ExchangeResult where
  | success (accessToken : String) (expiresIn : Int)
  | authFailure (err : String) (description : String)
  | apiFailure (statusCode : Int) (body : String)
  | transportFailure (transient : Bool)
deriving Repr, DecidableEq

/-- Error taxonomy returned by the pipeline (errors.go), abstracted to
what the claims distinguish.  `api s b` is an `APIError` with status
`s`; its details/message are abstracted to the raw response body `b`
(errors.go `handleErrorResponse` stores either the parsed body fields
or the raw body).  `parseFailure` is the wrapped `json.Unmarshal` error
of client.go:279, `tokenParseFailure` the one of auth.go:110. -/
inductive DKError where
  | rateLimit (e : RateLimitError)
  | api (statusCode : Int) (body : String)
  | auth (err : String) (description : String)
  | transport (transient : Bool)
  | parseFailure
  | invalidRequest
deriving Repr, DecidableEq

/-- tokenManager state (auth.go): the cached bearer credential.  The
Go zero `time.Time` of a fresh/invalidated manager is modelled as
expiry 0. -/
structure tokenManager where
  accessToken : String
  tokenExpiry : Int
deriving Repr, DecidableEq

/-- The token-freshness condition of auth.go:57 and auth.go:69:
the cached token is non-empty and `now` is before expiry minus the
60-second buffer (`tokenExpiryBuffer`). -/
def tokenValid (tm : tokenManager) (now : Int) : Bool :=
  tm.accessToken ≠ "" && now < tm.tokenExpiry - 60

/-- refreshToken (auth.go:65-117): under the exclusive lock, re-check
freshness (auth.go:69) — if still valid return the cached token with
no network call; otherwise issue the token exchange, and on success
store the token with expiry `now + expiresIn` (auth.go:113-114).  The
third component records whether a network exchange was issued. -/
def tokenManager.refreshToken (tm : tokenManager) (now : Int) (exch : ExchangeResult) :
    Except DKError String × tokenManager × Bool :=
  if tokenValid tm now then
    (.ok tm.accessToken, tm, false)
  else
    match exch with
    | .success tok tin => (.ok tok, { accessToken := tok, tokenExpiry := now + tin }, true)
    | .authFailure e d => (.error (.auth e d), tm, true)
    | .apiFailure s b => (.error (.api s b), tm, true)
    | .transportFailure t => (.error (.transport t), tm, true)

/-- getToken (auth.go:51-62): fast path returns the cached token when
the freshness condition holds; otherwise defers to `refreshToken`. -/
def tokenManager.getToken (tm : tokenManager) (now : Int) (exch : ExchangeResult) :
    Except DKError String × tokenManager × Bool :=
  if tokenValid tm now then
    (.ok tm.accessToken, tm, false)
  else
    tm.refreshToken now exch

/-- invalidate (auth.go:120-125): clears the cached token and expiry. -/
def tokenManager.invalidate (_tm : tokenManager) : tokenManager :=
  { accessToken := "", tokenExpiry := 0 }

/-- In the Go code the refresh lock (auth.go:66) is held for the whole
body of `refreshToken`, including the network exchange, so concurrent
callers' bodies execute in some sequential order.  `refreshRound n`
runs `n` such serialized `refreshToken` bodies (all at time `now`,
every issued exchange answered by `exch`) and counts how many of them
issued a network exchange. -/
def refreshRound : Nat → tokenManager → Int → ExchangeResult → tokenManager × Nat
  | 0, tm, _, _ => (tm, 0)
  | n + 1, tm, now, exch =>
    let (_, tm', did) := tm.refreshToken now exch
    let (tmf, c) := refreshRound n tm' now exch
    (tmf, (if did then 1 else 0) + c)

/-- Modelled from the spec: the retry classifier `shouldRetry(err,
statusCode)` (spec §4.2) is not among the provided sources — only its
callers (client.go:220,241,273) and its tests are.  It is true when
the status code is one of 429, 500, 502, 503, 504, or when the
transport error signals a timeout/temporary condition; false
otherwise.  A non-nil transport error is modelled as `some t` where
`t` is its timeout/temporary classification; `none` is Go `nil`. -/
def shouldRetry (transportTransient : Option Bool) (statusCode : Int) : Bool :=
  match transportTransient with
  | some t => t
  | none =>
    statusCode == 429 || statusCode == 500 || statusCode == 502 ||
      statusCode == 503 || statusCode == 504

/-- Transient classification of a pipeline error, feeding `shouldRetry`
at client.go:220: only a timeout/temporary transport error is
transient. -/
def DKError.isTransient : DKError → Bool
  | .transport t => t
  | _ => false

/-- One scripted network answer to a data request (the
`c.httpClient.Do(req)` call at client.go:239):
* `transportErr t` — the send itself failed, `t` its timeout/temporary
  classification;
* `status code retryAfter parseOk body` — an HTTP response with the
  given status code, its `Retry-After` header already parsed to an
  integer (0 when absent or unparseable, per the spec for
  `parseRetryAfter`), whether on a 2xx the body would deserialize into
  the expected result shape, and the raw body. -/
inductive HttpResponse where
  | transportErr (transient : Bool)
  | status (code : Int) (retryAfter : Int) (parseOk : Bool) (body : String)
deriving Repr, DecidableEq

/-- Scripted environment: `resp k` answers the k-th data-request send,
`exch k` the k-th token exchange, counted per client. -/
structure Env where
  resp : Nat → HttpResponse
  exch : Nat → ExchangeResult

/-- State threaded through one top-level pipeline call: the limiter,
the credential cache, the response cache, the clock, and observation
counters (number of `doOnce` attempts, data-request sends, and token
exchanges performed so far). -/
structure CallState where
  limiter : RateLimiter
  tm : tokenManager
  cache : List (String × String × Int)
  now : Int
  attemptsMade : Nat
  sends : Nat
  exchanges : Nat
deriving Repr

/-- Observable outcome of one `doOnce` attempt: the returned triple
`(statusCode, shouldRetryRequest, err)` of client.go:213, the parsed
result out-parameter (`some body` exactly when the attempt succeeded),
and the post-state. -/
structure OnceOut where
  statusCode : Int
  retryable : Bool
  err : Option DKError
  result : Option String
  st : CallState
deriving Repr

/-- doOnce (client.go:213-284): one attempt.  In order: rate-limiter
gate, token fetch, send, then response classification (429 → limiter
update via `UpdateFromResponse` and retryable; 401 → non-retryable,
deferred to `doWithRetry`; other non-2xx → classified by
`shouldRetry`; 2xx → parse, a parse failure being non-retryable). -/
def doOnce (env : Env) (st : CallState) : OnceOut :=
  let st := { st with attemptsMade := st.attemptsMade + 1 }
  match st.limiter.Allow st.now with
  | (some rle, limiter') =>
    ⟨0, false, some (.rateLimit rle), none, { st with limiter := limiter' }⟩
  | (none, limiter') =>
    let st := { st with limiter := limiter' }
    let (tokRes, tm', did) := st.tm.getToken st.now (env.exch st.exchanges)
    let st := { st with tm := tm', exchanges := st.exchanges + (if did then 1 else 0) }
    match tokRes with
    | .error e => ⟨0, shouldRetry (some e.isTransient) 0, some e, none, st⟩
    | .ok _token =>
      let resp := env.resp st.sends
      let st := { st with sends := st.sends + 1 }
      match resp with
      | .transportErr t => ⟨0, shouldRetry (some t) 0, some (.transport t), none, st⟩
      | .status code retryAfter parseOk body =>
        if code == 429 then
          let limiter' := st.limiter.UpdateFromResponse retryAfter st.now
          ⟨429, true, some (.api 429 body), none, { st with limiter := limiter' }⟩
        else if code == 401 then
          ⟨401, false, some (.api 401 body), none, st⟩
        else if code < 200 || code ≥ 300 then
          ⟨code, shouldRetry none code, some (.api code body), none, st⟩
        else if parseOk then
          ⟨code, false, none, some body, st⟩
        else
          ⟨code, false, some .parseFailure, none, st⟩

/-- Outcome of one run of the attempt loop of `doWithRetry`: either a
final result, or the one-shot re-authentication restart (the
`return c.doWithRetry(..., true)` of client.go:194, taken after
invalidating the credential). -/
inductive LoopOutcome where
  | done (res : Except DKError String) (st : CallState)
  | restart401 (st : CallState)
deriving Repr

/-- The attempt loop of doWithRetry (client.go:176-208), written with
the number of remaining loop iterations as fuel; `attempt` is the Go
loop index (so a call with `remaining + attempt = maxAttempts`
corresponds to the Go loop state).  Before every attempt but the
first, sleeps for `backoff (attempt - 1)` (the sleep only advances the
clock: the modelled runs are never cancelled).  After a failed
attempt: a 401 status on a call that has not already taken the
re-authentication path invalidates the credential and restarts; a
non-retryable error, or the last attempt, returns that error;
otherwise the loop continues.  When the fuel is exhausted the Go loop
falls out and returns `lastErr` (nil only if the loop never ran). -/
def attemptLoop (env : Env) (backoff : Nat → Int) (isRetryAfter401 : Bool) :
    Nat → Nat → Option DKError → CallState → LoopOutcome
  | 0, _, lastErr, st =>
    match lastErr with
    | some e => .done (.error e) st
    | none => .done (.ok "") st
  | remaining + 1, attempt, _lastErr, st =>
    let st := if attempt > 0 then { st with now := st.now + backoff (attempt - 1) } else st
    let o := doOnce env st
    match o.err with
    | none => .done (.ok (o.result.getD "")) o.st
    | some err =>
      if o.statusCode == 401 && !isRetryAfter401 then
        .restart401 { o.st with tm := o.st.tm.invalidate }
      else if !o.retryable then
        .done (.error err) o.st
      else if remaining == 0 then
        .done (.error err) o.st
      else
        attemptLoop env backoff isRetryAfter401 remaining (attempt + 1) (some err) o.st

/-- doWithRetry (client.go:172-209): runs the attempt loop with
`maxRetries + 1` attempts; a 401 restart re-enters the loop once with
a fresh attempt budget and the re-authentication flag set.  With the
flag set the loop never restarts again (a second 401 is terminal), so
the final branch is unreachable. -/
def doWithRetry (env : Env) (maxRetries : Nat) (backoff : Nat → Int) (st : CallState)
    (isRetryAfter401 : Bool) : Except DKError String × CallState :=
  match attemptLoop env backoff isRetryAfter401 (maxRetries + 1) 0 none st with
  | .done r st' => (r, st')
  | .restart401 st' =>
    match attemptLoop env backoff true (maxRetries + 1) 0 none st' with
    | .done r st2 => (r, st2)
    | .restart401 st2 => (.error (.api 401 ""), st2)

/-- The method `do` (client.go:167-169): a top-level call, i.e.
`doWithRetry` with the re-authentication flag initially false.  Named
`doCall` because `do` is reserved in Lean. -/
def doCall (env : Env) (maxRetries : Nat) (backoff : Nat → Int) (st : CallState) :
    Except DKError String × CallState :=
  doWithRetry env maxRetries backoff st false

/-- Modelled from the spec: `MemoryCache.Get` (spec §4.4) is not among
the provided sources — only its callers (products source) and its
tests are.  Get treats an entry whose expiry has passed (`expiresAt ≤
now`) as a miss and removes it (lazy expiry); an unexpired entry is a
hit and leaves the store unchanged.  The store is a key → (value,
expiresAt) association list. -/
def cacheGet (c : List (String × String × Int)) (key : String) (now : Int) :
    Option String × List (String × String × Int) :=
  match c.find? (fun e => e.1 == key) with
  | none => (none, c)
  | some e =>
    if e.2.2 ≤ now then (none, c.filter (fun e' => e'.1 ≠ key))
    else (some e.2.1, c)

/-- Modelled from the spec: `MemoryCache.Set` (spec §4.4) stores the
value under the key with expiry `now + ttl`, replacing any previous
entry for that key. -/
def cacheSet (c : List (String × String × Int)) (key value : String) (now ttl : Int) :
    List (String × String × Int) :=
  (key, value, now + ttl) :: c.filter (fun e => e.1 ≠ key)

/-- Modelled from the spec: `cacheKeyForSearch` (spec §4.4) is not
among the provided sources — only its callers are.  A deterministic,
discriminating pure function of the locale and the (normalized) search
parameters; the search request is abstracted to its keywords and
record limit. -/
def cacheKeyForSearch (loc : Locale) (keywords : String) (limit : Int) : String :=
  "search|" ++ loc.Site ++ "|" ++ loc.Language ++ "|" ++ loc.Currency ++ "|" ++
    keywords ++ "|" ++ toString limit

/-- Modelled from the spec: `cacheKeyForDetails` (spec §4.4), a
deterministic, discriminating pure function of the locale and the
product number. -/
def cacheKeyForDetails (loc : Locale) (productNumber : String) : String :=
  "details|" ++ loc.Site ++ "|" ++ loc.Language ++ "|" ++ loc.Currency ++ "|" ++ productNumber

/-- KeywordSearch (products source): reject empty keywords, clamp the
record limit into [1,50] (defaulting 10), then — when caching is
enabled and a cache is present — look up the derived key and return a
hit immediately if the cached bytes deserialize (`decode`); otherwise
perform the network call through `doCall` and store a successful
result under the same key with the search TTL.  The response value is
abstracted to its serialized body, so `decode` models
`json.Unmarshal` into `SearchResponse` and serialization is the
identity. -/
def KeywordSearch (env : Env) (maxRetries : Nat) (backoff : Nat → Int)
    (cacheEnabled hasCache : Bool) (decode : String → Option String)
    (locale : Locale) (keywords : String) (limit : Int) (searchTTL : Int)
    (st : CallState) : Except DKError String × CallState :=
  if keywords == "" then (.error .invalidRequest, st)
  else
    let limit := if limit ≤ 0 then 10 else if limit > 50 then 50 else limit
    let key := cacheKeyForSearch locale keywords limit
    let lookup :=
      if cacheEnabled && hasCache then cacheGet st.cache key st.now else (none, st.cache)
    match lookup.1.bind decode with
    | some respv => (.ok respv, { st with cache := lookup.2 })
    | none =>
      let st := { st with cache := lookup.2 }
      let (res, st') := doCall env maxRetries backoff st
      match res with
      | .error e => (.error e, st')
      | .ok body =>
        let st' := if cacheEnabled && hasCache then
            { st' with cache := cacheSet st'.cache key body st'.now searchTTL }
          else st'
        (.ok body, st')

/-- ProductDetails (products source): reject an empty product number,
then the same cache-check / network / cache-store sequence as
`KeywordSearch`, keyed by `cacheKeyForDetails` with the details TTL. -/
def ProductDetails (env : Env) (maxRetries : Nat) (backoff : Nat → Int)
    (cacheEnabled hasCache : Bool) (decode : String → Option String)
    (locale : Locale) (productNumber : String) (detailsTTL : Int)
    (st : CallState) : Except DKError String × CallState :=
  if productNumber == "" then (.error .invalidRequest, st)
  else
    let key := cacheKeyForDetails locale productNumber
    let lookup :=
      if cacheEnabled && hasCache then cacheGet st.cache key st.now else (none, st.cache)
    match lookup.1.bind decode with
    | some respv => (.ok respv, { st with cache := lookup.2 })
    | none =>
      let st := { st with cache := lookup.2 }
      let (res, st') := doCall env maxRetries backoff st
      match res with
      | .error e => (.error e, st')
      | .ok body =>
        let st' := if cacheEnabled && hasCache then
            { st' with cache := cacheSet st'.cache key body st'.now detailsTTL }
          else st'
        (.ok body, st')

/-- Helper: a run of in-window `Allow` calls with enough headroom
succeeds throughout and increments both counts once per call, changing
nothing else. -/
theorem allowTimes_ok (k : Nat) (r : RateLimiter) (now : Int)
    (hm : ¬ now > r.minuteResetTime) (hd : ¬ now > r.dayResetTime)
    (hcm : r.minuteCount + k ≤ r.minuteLimit) (hcd : r.dayCount + k ≤ r.dayLimit) :
    allowTimes k r now =
      ({ r with minuteCount := r.minuteCount + k, dayCount := r.dayCount + k }, true) := by
  induction k generalizing r with
  | zero => simp [allowTimes]
  | succ n ih =>
    have hlt : ¬ r.minuteCount ≥ r.minuteLimit := by omega
    have hltd : ¬ r.dayCount ≥ r.dayLimit := by omega
    simp only [allowTimes, RateLimiter.Allow, if_neg hm, if_neg hd, if_neg hlt, if_neg hltd]
    rw [ih]
    · simp only []
      congr 1
      · congr 1 <;> omega
    · exact hm
    · exact hd
    · simp only []
      omega
    · simp only []
      omega

/-- Helper: an in-window `Allow` whose minute count has reached the
minute limit fails with the minute-tagged error and leaves the state
unchanged (the minute check precedes the day check). -/
theorem Allow_minute_full (r : RateLimiter) (now : Int)
    (hm : ¬ now > r.minuteResetTime) (hd : ¬ now > r.dayResetTime)
    (hcnt : r.minuteCount ≥ r.minuteLimit) :
    r.Allow now = (some { Limit := r.minuteLimit, Remaining := 0,
                          ResetAt := r.minuteResetTime, Ty := "minute" }, r) := by
  simp only [RateLimiter.Allow, if_neg hm, if_neg hd, if_pos hcnt]

/-- Helper: when the minute window is in-window with its count at the
limit, `Allow` reports the minute-tagged error regardless of the day
window. -/
theorem Allow_minute_exceeded (r : RateLimiter) (now : Int)
    (hm : ¬ now > r.minuteResetTime) (hcnt : r.minuteCount ≥ r.minuteLimit) :
    (r.Allow now).1 = some { Limit := r.minuteLimit, Remaining := 0,
                             ResetAt := r.minuteResetTime, Ty := "minute" } := by
  by_cases hdr : now > r.dayResetTime
  · simp [RateLimiter.Allow, hm, hdr, hcnt]
  · simp [RateLimiter.Allow, hm, hdr, hcnt]

/-- C3: on a freshly constructed limiter with minute limit N and day
limit D ≥ N, N consecutive in-window `Allow` calls all succeed; the
(N+1)th call fails with a RateLimitError tagged "minute" and does not
change the limiter state (in particular it increments neither
counter); and in general any in-window `Allow` finding the minute
count at its limit fails minute-tagged with an unchanged state — the
minute window is checked before the day window. -/
theorem c3_minute_limit (N : Nat) (D t0 now : Int)
    (hD : (N : Int) ≤ D) (hwin : now ≤ t0 + 60) :
    (allowTimes N (NewRateLimiterWithLimits N D t0) now).2 = true ∧
    ((allowTimes N (NewRateLimiterWithLimits N D t0) now).1.Allow now).1 =
      some { Limit := N, Remaining := 0, ResetAt := t0 + 60, Ty := "minute" } ∧
    ((allowTimes N (NewRateLimiterWithLimits N D t0) now).1.Allow now).2 =
      (allowTimes N (NewRateLimiterWithLimits N D t0) now).1 ∧
    (∀ r : RateLimiter, ¬ now > r.minuteResetTime → ¬ now > r.dayResetTime →
      r.minuteCount ≥ r.minuteLimit →
      (r.Allow now).1 = some { Limit := r.minuteLimit, Remaining := 0,
                               ResetAt := r.minuteResetTime, Ty := "minute" } ∧
      (r.Allow now).2 = r) := by
  have hm : ¬ now > (NewRateLimiterWithLimits N D t0).minuteResetTime := by
    simp only [NewRateLimiterWithLimits, not_lt, gt_iff_lt]; omega
  have hd : ¬ now > (NewRateLimiterWithLimits N D t0).dayResetTime := by
    simp only [NewRateLimiterWithLimits, not_lt, gt_iff_lt]; omega
  have hrun := allowTimes_ok N (NewRateLimiterWithLimits N D t0) now hm hd
    (by simp [NewRateLimiterWithLimits]) (by simp [NewRateLimiterWithLimits]; omega)
  have hkey := Allow_minute_full ((allowTimes N (NewRateLimiterWithLimits N D t0) now).1) now
    (by rw [hrun]; simpa [NewRateLimiterWithLimits] using hm)
    (by rw [hrun]; simpa [NewRateLimiterWithLimits] using hd)
    (by rw [hrun]; simp [NewRateLimiterWithLimits])
  refine ⟨by rw [hrun], ?_, ?_, ?_⟩
  · rw [hkey, hrun]
    simp [NewRateLimiterWithLimits]
  · rw [hkey]
  · intro r hrm hrd hcnt
    rw [Allow_minute_full r now hrm hrd hcnt]
    exact ⟨rfl, rfl⟩

/-- C3 witness: minute limit 2, day limit 3, constructed at time 0,
calls at time 30. -/
theorem c3_minute_limit_witness :
    ((2 : Nat) : Int) ≤ 3 ∧ (30 : Int) ≤ 0 + 60 ∧
    (allowTimes 2 (NewRateLimiterWithLimits 2 3 0) 30).2 = true ∧
    ((allowTimes 2 (NewRateLimiterWithLimits 2 3 0) 30).1.Allow 30).1 =
      some { Limit := 2, Remaining := 0, ResetAt := 0 + 60, Ty := "minute" } :=
  ⟨by decide, by decide,
   (c3_minute_limit 2 3 0 30 (by decide) (by decide)).1,
   by
     have h := (c3_minute_limit 2 3 0 30 (by decide) (by decide)).2.1
     simpa using h⟩

/-- C7: UpdateFromResponse with a non-positive retry-after leaves the
whole limiter state unchanged; with a positive retry-after n it sets
the minute count to the minute limit and the minute reset time to
now + n while every other field (in particular the day window's count,
limit and reset time) keeps its value, and every subsequent Allow at
a time not after now + n fails with the minute-tagged error. -/
theorem c7_update_from_response (r : RateLimiter) (n now : Int) :
    (n ≤ 0 → r.UpdateFromResponse n now = r) ∧
    (0 < n →
      r.UpdateFromResponse n now =
        { r with minuteCount := r.minuteLimit, minuteResetTime := now + n } ∧
      ∀ t, t ≤ now + n →
        ((r.UpdateFromResponse n now).Allow t).1 =
          some { Limit := r.minuteLimit, Remaining := 0, ResetAt := now + n, Ty := "minute" }) := by
  constructor
  · intro hn
    simp [RateLimiter.UpdateFromResponse, hn]
  · intro hn
    have hne : ¬ n ≤ 0 := by omega
    have hupd : r.UpdateFromResponse n now =
        { r with minuteCount := r.minuteLimit, minuteResetTime := now + n } := by
      simp [RateLimiter.UpdateFromResponse, hne]
    refine ⟨hupd, ?_⟩
    intro t ht
    rw [hupd]
    have key := Allow_minute_exceeded
      { r with minuteCount := r.minuteLimit, minuteResetTime := now + n } t
      (by simp only [not_lt, gt_iff_lt]; omega) (by simp)
    simpa using key

/-- C7 witness: UpdateFromResponse 60 at time 5 on a fresh 5/10
limiter forces the minute window; UpdateFromResponse 0 and -7 are
no-ops. -/
theorem c7_update_from_response_witness :
    (0 : Int) < 60 ∧
    (NewRateLimiterWithLimits 5 10 0).UpdateFromResponse 60 5 =
      { NewRateLimiterWithLimits 5 10 0 with
          minuteCount := (NewRateLimiterWithLimits 5 10 0).minuteLimit,
          minuteResetTime := 5 + 60 } ∧
    (0 : Int) ≤ 0 ∧
    (NewRateLimiterWithLimits 5 10 0).UpdateFromResponse 0 5 = NewRateLimiterWithLimits 5 10 0 ∧
    (NewRateLimiterWithLimits 5 10 0).UpdateFromResponse (-7) 5 = NewRateLimiterWithLimits 5 10 0 :=
  ⟨by decide,
   ((c7_update_from_response (NewRateLimiterWithLimits 5 10 0) 60 5).2 (by decide)).1,
   by decide,
   (c7_update_from_response (NewRateLimiterWithLimits 5 10 0) 0 5).1 (by decide),
   (c7_update_from_response (NewRateLimiterWithLimits 5 10 0) (-7) 5).1 (by decide)⟩

/-- C8: after K successful in-window Allow calls on a fresh limiter,
Stats reports MinuteUsed = K, MinuteRemaining = minuteLimit − K,
DayUsed = K and DayRemaining = dayLimit − K; and Stats is a pure read:
its post-state equals its receiver, so an Allow after any Stats call
behaves exactly like an Allow without it. -/
theorem c8_stats_after_allows (N D t0 now : Int) (K : Nat)
    (hKN : (K : Int) ≤ N) (hKD : (K : Int) ≤ D) (hwin : now ≤ t0 + 60) :
    ((allowTimes K (NewRateLimiterWithLimits N D t0) now).1.Stats now).MinuteUsed = K ∧
    ((allowTimes K (NewRateLimiterWithLimits N D t0) now).1.Stats now).MinuteRemaining = N - K ∧
    ((allowTimes K (NewRateLimiterWithLimits N D t0) now).1.Stats now).DayUsed = K ∧
    ((allowTimes K (NewRateLimiterWithLimits N D t0) now).1.Stats now).DayRemaining = D - K ∧
    (∀ (r : RateLimiter) (t : Int), (r.StatsSt t).2 = r) ∧
    (∀ (r : RateLimiter) (t t' : Int), ((r.StatsSt t).2).Allow t' = r.Allow t') := by
  have hm : ¬ now > (NewRateLimiterWithLimits N D t0).minuteResetTime := by
    simp only [NewRateLimiterWithLimits, not_lt, gt_iff_lt]; omega
  have hd : ¬ now > (NewRateLimiterWithLimits N D t0).dayResetTime := by
    simp only [NewRateLimiterWithLimits, not_lt, gt_iff_lt]; omega
  have hrun := allowTimes_ok K (NewRateLimiterWithLimits N D t0) now hm hd
    (by simp [NewRateLimiterWithLimits]; omega) (by simp [NewRateLimiterWithLimits]; omega)
  rw [hrun]
  refine ⟨?_, ?_, ?_, ?_, fun r t => rfl, fun r t t' => rfl⟩ <;>
    simp [RateLimiter.Stats, NewRateLimiterWithLimits, hwin] <;> omega

/-- C8 witness: K = 3 allows on a fresh 5/7 limiter at time 0. -/
theorem c8_stats_after_allows_witness :
    ((3 : Nat) : Int) ≤ 5 ∧ ((3 : Nat) : Int) ≤ 7 ∧ (0 : Int) ≤ 0 + 60 ∧
    ((allowTimes 3 (NewRateLimiterWithLimits 5 7 0) 0).1.Stats 0).MinuteUsed = ((3 : Nat) : Int) ∧
    ((allowTimes 3 (NewRateLimiterWithLimits 5 7 0) 0).1.Stats 0).DayRemaining = 7 - ((3 : Nat) : Int) :=
  ⟨by decide, by decide, by decide,
   (c8_stats_after_allows 5 7 0 0 3 (by decide) (by decide) (by decide)).1,
   (c8_stats_after_allows 5 7 0 0 3 (by decide) (by decide) (by decide)).2.2.2.1⟩

/-- Helper: a round of serialized refresh bodies starting from a valid
cache issues no exchange and leaves the cache unchanged (each body's
lock re-check finds the cached token still fresh). -/
theorem refreshRound_valid (m : Nat) (tm : tokenManager) (now : Int) (exch : ExchangeResult)
    (h : tokenValid tm now = true) : refreshRound m tm now exch = (tm, 0) := by
  induction m with
  | zero => rfl
  | succ k ih =>
    simp only [refreshRound, tokenManager.refreshToken, if_pos h]
    simpa using ih

/-- C5: getToken returns the cached token with no network exchange
exactly when the cached token is non-empty and now is before expiry
minus the 60-second buffer; when that condition holds refreshToken's
re-validation under the lock likewise returns the cached token with no
network call; when it fails, getToken performs the exchange and on
success stores expiry = now + expiresIn; and after invalidate the next
getToken necessarily performs an exchange. -/
theorem c5_token_cache (tm : tokenManager) (now : Int) (exch : ExchangeResult) :
    ((tm.getToken now exch).2.2 = false ↔ tokenValid tm now = true) ∧
    (tokenValid tm now = true →
      tm.getToken now exch = (.ok tm.accessToken, tm, false)) ∧
    (tokenValid tm now = true →
      tm.refreshToken now exch = (.ok tm.accessToken, tm, false)) ∧
    (tokenValid tm now = false → ∀ tok tin, exch = .success tok tin →
      tm.getToken now exch = (.ok tok, { accessToken := tok, tokenExpiry := now + tin }, true)) ∧
    ((tm.invalidate.getToken now exch).2.2 = true) := by
  refine ⟨?_, ?_, ?_, ?_, ?_⟩
  · by_cases h : tokenValid tm now
    · simp [tokenManager.getToken, h]
    · simp only [Bool.not_eq_true] at h
      simp only [tokenManager.getToken, tokenManager.refreshToken, h]
      cases exch <;> simp [h]
  · intro h
    simp [tokenManager.getToken, h]
  · intro h
    simp [tokenManager.refreshToken, h]
  · intro h tok tin he
    subst he
    simp [tokenManager.getToken, tokenManager.refreshToken, h]
  · have h : tokenValid tm.invalidate now = false := by
      simp [tokenValid, tokenManager.invalidate]
    simp only [tokenManager.getToken, tokenManager.refreshToken, h]
    cases exch <;> simp [h]

/-- C5 witness: a fresh token (expiry 1000, now 0) is served from
cache; an unset manager performs the exchange and stores
expiry = now + expiresIn. -/
theorem c5_token_cache_witness :
    tokenValid { accessToken := "t", tokenExpiry := 1000 } 0 = true ∧
    (tokenManager.getToken { accessToken := "t", tokenExpiry := 1000 } 0 (.success "n" 500)) =
      (.ok "t", { accessToken := "t", tokenExpiry := 1000 }, false) ∧
    tokenValid { accessToken := "", tokenExpiry := 0 } 0 = false ∧
    (tokenManager.getToken { accessToken := "", tokenExpiry := 0 } 0 (.success "n" 500)) =
      (.ok "n", { accessToken := "n", tokenExpiry := 0 + 500 }, true) :=
  ⟨by decide,
   (c5_token_cache { accessToken := "t", tokenExpiry := 1000 } 0 (.success "n" 500)).2.1
     (by decide),
   by decide,
   (c5_token_cache { accessToken := "", tokenExpiry := 0 } 0 (.success "n" 500)).2.2.2.1
     (by decide) "n" 500 rfl⟩

/-- C4: the refresh lock is held across the whole body of
refreshToken, including the network exchange, so the bodies of N
concurrent callers execute serialized in some order; modelling that
serialization, N ≥ 1 callers starting with no valid cached token
issue exactly one network token-exchange between them, and every
caller ends observing the token stored by that single exchange (via
the re-validation check performed after acquiring the lock). -/
theorem c4_single_refresh (n : Nat) (tm : tokenManager) (now tin : Int) (tok : String)
    (hn : 1 ≤ n) (hinv : tokenValid tm now = false) (htok : tok ≠ "") (htin : 60 < tin) :
    (refreshRound n tm now (.success tok tin)).2 = 1 ∧
    (refreshRound n tm now (.success tok tin)).1 =
      { accessToken := tok, tokenExpiry := now + tin } := by
  obtain ⟨m, rfl⟩ : ∃ m, n = m + 1 := ⟨n - 1, by omega⟩
  have hvalid : tokenValid { accessToken := tok, tokenExpiry := now + tin } now = true := by
    simp [tokenValid, htok]
    omega
  simp only [refreshRound, tokenManager.refreshToken, hinv, Bool.false_eq_true, if_false]
  rw [refreshRound_valid m _ now _ hvalid]
  simp

/-- C4 witness: 3 serialized callers, unset cache, exchange yields
token "tk" valid for 3600 seconds — exactly one exchange. -/
theorem c4_single_refresh_witness :
    1 ≤ 3 ∧ tokenValid { accessToken := "", tokenExpiry := 0 } 0 = false ∧
    "tk" ≠ "" ∧ (60 : Int) < 3600 ∧
    (refreshRound 3 { accessToken := "", tokenExpiry := 0 } 0 (.success "tk" 3600)).2 = 1 :=
  ⟨by decide, by decide, by decide, by decide,
   (c4_single_refresh 3 { accessToken := "", tokenExpiry := 0 } 0 3600 "tk"
     (by decide) (by decide) (by decide) (by decide)).1⟩

/-- Helper: when the rate-limiter gate passes (both windows in-window
with headroom) and the cached token is fresh, doOnce reaches the send
and its outcome is determined by the scripted response; the post-state
has both limiter counts bumped, the send counter advanced, and (except
for a 429's limiter update) nothing else changed. -/
theorem doOnce_response (env : Env) (st : CallState)
    (hm : ¬ st.now > st.limiter.minuteResetTime) (hd : ¬ st.now > st.limiter.dayResetTime)
    (hcm : st.limiter.minuteCount < st.limiter.minuteLimit)
    (hcd : st.limiter.dayCount < st.limiter.dayLimit)
    (htok : tokenValid st.tm st.now = true) :
    doOnce env st =
      (let st1 : CallState :=
        { st with
          attemptsMade := st.attemptsMade + 1
          limiter := { st.limiter with
                        minuteCount := st.limiter.minuteCount + 1
                        dayCount := st.limiter.dayCount + 1 }
          sends := st.sends + 1 }
      match env.resp st.sends with
      | .transportErr t => ⟨0, shouldRetry (some t) 0, some (.transport t), none, st1⟩
      | .status code ra pok body =>
        if code == 429 then
          ⟨429, true, some (.api 429 body), none,
            { st1 with limiter := st1.limiter.UpdateFromResponse ra st1.now }⟩
        else if code == 401 then ⟨401, false, some (.api 401 body), none, st1⟩
        else if code < 200 || code ≥ 300 then
          ⟨code, shouldRetry none code, some (.api code body), none, st1⟩
        else if pok then ⟨code, false, none, some body, st1⟩
        else ⟨code, false, some .parseFailure, none, st1⟩) := by
  have hnm : ¬ st.limiter.minuteCount ≥ st.limiter.minuteLimit := by omega
  have hnd : ¬ st.limiter.dayCount ≥ st.limiter.dayLimit := by omega
  have hallow : st.limiter.Allow st.now =
      (none, { st.limiter with
                minuteCount := st.limiter.minuteCount + 1
                dayCount := st.limiter.dayCount + 1 }) := by
    simp only [RateLimiter.Allow, if_neg hm, if_neg hd, if_neg hnm, if_neg hnd]
  simp only [doOnce, hallow, tokenManager.getToken, htok, if_true]
  cases henv : env.resp st.sends with
  | transportErr t => simp
  | status code ra pok body => simp


/-- Total backoff slept by the next `r` further loop iterations when
the next of them has attempt index `a + 1` (the iteration with attempt
index `j > 0` sleeps `backoff (j - 1)`). -/
def sumBackoff (backoff : Nat → Int) (a : Nat) : Nat → Int
  | 0 => 0
  | r + 1 => backoff a + sumBackoff backoff (a + 1) r

/-- Helper: a sum of nonnegative backoffs is nonnegative. -/
theorem sumBackoff_nonneg (backoff : Nat → Int) (hb : ∀ k, 0 ≤ backoff k) (a r : Nat) :
    0 ≤ sumBackoff backoff a r := by
  induction r generalizing a with
  | zero => simp [sumBackoff]
  | succ n ih => simp only [sumBackoff]; have := hb a; have := ih (a + 1); omega

/-- The pipeline error produced by a failing scripted response: a
transport error keeps its transient flag, an HTTP error becomes the
API error carrying its status and body. -/
def errOfResp : HttpResponse → DKError
  | .transportErr t => .transport t
  | .status c _ _ body => .api c body

/-- A scripted response that fails its attempt with a retryable,
non-401 outcome leaving the limiter untouched: a transient transport
error, a 429 whose parsed Retry-After is non-positive (making
`UpdateFromResponse` a no-op), or a retryable 5xx (500/502/503/504). -/
def retryableScript (resp : HttpResponse) : Prop :=
  (resp = .transportErr true) ∨
  (∃ ra pok body, resp = .status 429 ra pok body ∧ ra ≤ 0) ∨
  (∃ c ra pok body, resp = .status c ra pok body ∧ (c = 500 ∨ c = 502 ∨ c = 503 ∨ c = 504))

/-- Helper (C1 loop invariant): if every one of the next `rem + 1`
scripted responses is a retryable non-401 failure, the windows and the
token outlast the whole run, and the limiter has headroom for all
remaining attempts, then the attempt loop performs exactly `rem + 1`
further attempts (each with its own send) and returns the error of the
last response consumed. -/
theorem attemptLoop_retryable (env : Env) (backoff : Nat → Int) (isR : Bool)
    (hb : ∀ k, 0 ≤ backoff k) :
    ∀ (rem attempt : Nat) (lastErr : Option DKError) (st : CallState),
    (st.now + (if attempt > 0 then backoff (attempt - 1) else 0) + sumBackoff backoff attempt rem
       ≤ st.limiter.minuteResetTime) →
    (st.now + (if attempt > 0 then backoff (attempt - 1) else 0) + sumBackoff backoff attempt rem
       ≤ st.limiter.dayResetTime) →
    (st.tm.accessToken ≠ "") →
    (st.now + (if attempt > 0 then backoff (attempt - 1) else 0) + sumBackoff backoff attempt rem
       < st.tm.tokenExpiry - 60) →
    (st.limiter.minuteCount + (rem + 1) ≤ st.limiter.minuteLimit) →
    (st.limiter.dayCount + (rem + 1) ≤ st.limiter.dayLimit) →
    (∀ k, k ≤ rem → retryableScript (env.resp (st.sends + k))) →
    ∃ stF : CallState,
      attemptLoop env backoff isR (rem + 1) attempt lastErr st =
        .done (.error (errOfResp (env.resp (st.sends + rem)))) stF ∧
      stF.attemptsMade = st.attemptsMade + (rem + 1) ∧
      stF.sends = st.sends + (rem + 1) := by
  intro rem
  induction rem with
  | zero =>
    intro attempt lastErr st hM hD htok hexp hcm hcd hscript
    simp only [sumBackoff, add_zero] at hM hD hexp
    simp only [attemptLoop]
    set stA := (if attempt > 0 then { st with now := st.now + backoff (attempt - 1) } else st :
      CallState) with hstA
    have hAlim : stA.limiter = st.limiter := by
      by_cases h0 : attempt > 0 <;> simp [hstA, h0]
    have hAtm : stA.tm = st.tm := by
      by_cases h0 : attempt > 0 <;> simp [hstA, h0]
    have hAsends : stA.sends = st.sends := by
      by_cases h0 : attempt > 0 <;> simp [hstA, h0]
    have hAatt : stA.attemptsMade = st.attemptsMade := by
      by_cases h0 : attempt > 0 <;> simp [hstA, h0]
    have hAnow : stA.now = st.now + (if attempt > 0 then backoff (attempt - 1) else 0) := by
      by_cases h0 : attempt > 0 <;> simp [hstA, h0]
    have hmA : ¬ stA.now > stA.limiter.minuteResetTime := by
      rw [hAnow, hAlim]; omega
    have hdA : ¬ stA.now > stA.limiter.dayResetTime := by
      rw [hAnow, hAlim]; omega
    have hcmA : stA.limiter.minuteCount < stA.limiter.minuteLimit := by rw [hAlim]; omega
    have hcdA : stA.limiter.dayCount < stA.limiter.dayLimit := by rw [hAlim]; omega
    have htokA : tokenValid stA.tm stA.now = true := by
      rw [hAtm]
      simp only [tokenValid, Bool.and_eq_true, decide_eq_true_eq]
      exact ⟨by simpa using htok, by rw [hAnow]; omega⟩
    rw [doOnce_response env stA hmA hdA hcmA hcdA htokA]
    simp only [Nat.add_zero]
    rw [hAsends]
    rcases hscript 0 (Nat.le_refl 0) with h0 | ⟨ra, pok, body, heq, hra⟩ |
      ⟨c, ra, pok, body, heq, hc⟩
    · simp only [Nat.add_zero] at h0
      rw [h0]
      exact ⟨{ stA with
               attemptsMade := stA.attemptsMade + 1
               limiter := { stA.limiter with
                             minuteCount := stA.limiter.minuteCount + 1
                             dayCount := stA.limiter.dayCount + 1 }
               sends := st.sends + 1 },
             by rfl, by simp [hAatt], by simp⟩
    · simp only [Nat.add_zero] at heq
      rw [heq]
      have hup : ∀ (r : RateLimiter) (t : Int), r.UpdateFromResponse ra t = r := by
        intro r t; simp [RateLimiter.UpdateFromResponse, hra]
      simp only [hup]
      exact ⟨{ stA with
               attemptsMade := stA.attemptsMade + 1
               limiter := { stA.limiter with
                             minuteCount := stA.limiter.minuteCount + 1
                             dayCount := stA.limiter.dayCount + 1 }
               sends := st.sends + 1 },
             by rfl, by simp [hAatt], by simp⟩
    · simp only [Nat.add_zero] at heq
      rw [heq]
      rcases hc with rfl | rfl | rfl | rfl <;>
        exact ⟨{ stA with
                 attemptsMade := stA.attemptsMade + 1
                 limiter := { stA.limiter with
                               minuteCount := stA.limiter.minuteCount + 1
                               dayCount := stA.limiter.dayCount + 1 }
                 sends := st.sends + 1 },
               by rfl, by simp [hAatt], by simp⟩
  | succ r ih =>
    intro attempt lastErr st hM hD htok hexp hcm hcd hscript
    simp only [sumBackoff] at hM hD hexp
    have hsumnn := sumBackoff_nonneg backoff hb (attempt + 1) r
    have hbA := hb attempt
    simp only [attemptLoop]
    set stA := (if attempt > 0 then { st with now := st.now + backoff (attempt - 1) } else st :
      CallState) with hstA
    have hAlim : stA.limiter = st.limiter := by
      by_cases h0 : attempt > 0 <;> simp [hstA, h0]
    have hAtm : stA.tm = st.tm := by
      by_cases h0 : attempt > 0 <;> simp [hstA, h0]
    have hAsends : stA.sends = st.sends := by
      by_cases h0 : attempt > 0 <;> simp [hstA, h0]
    have hAatt : stA.attemptsMade = st.attemptsMade := by
      by_cases h0 : attempt > 0 <;> simp [hstA, h0]
    have hAnow : stA.now = st.now + (if attempt > 0 then backoff (attempt - 1) else 0) := by
      by_cases h0 : attempt > 0 <;> simp [hstA, h0]
    have hmA : ¬ stA.now > stA.limiter.minuteResetTime := by
      rw [hAnow, hAlim]; omega
    have hdA : ¬ stA.now > stA.limiter.dayResetTime := by
      rw [hAnow, hAlim]; omega
    have hcmA : stA.limiter.minuteCount < stA.limiter.minuteLimit := by rw [hAlim]; omega
    have hcdA : stA.limiter.dayCount < stA.limiter.dayLimit := by rw [hAlim]; omega
    have htokA : tokenValid stA.tm stA.now = true := by
      rw [hAtm]
      simp only [tokenValid, Bool.and_eq_true, decide_eq_true_eq]
      exact ⟨by simpa using htok, by rw [hAnow]; omega⟩
    rw [doOnce_response env stA hmA hdA hcmA hcdA htokA]
    rw [hAsends]
    -- applying the induction hypothesis to the state after this attempt
    have hstep : ∀ (le : Option DKError) (st1 : CallState),
        st1.now = stA.now → st1.limiter.minuteResetTime = st.limiter.minuteResetTime →
        st1.limiter.dayResetTime = st.limiter.dayResetTime →
        st1.limiter.minuteCount = st.limiter.minuteCount + 1 →
        st1.limiter.dayCount = st.limiter.dayCount + 1 →
        st1.limiter.minuteLimit = st.limiter.minuteLimit →
        st1.limiter.dayLimit = st.limiter.dayLimit →
        st1.tm = st.tm → st1.sends = st.sends + 1 →
        st1.attemptsMade = st.attemptsMade + 1 →
        ∃ stF : CallState,
          attemptLoop env backoff isR (r + 1) (attempt + 1) le st1 =
            .done (.error (errOfResp (env.resp (st.sends + (r + 1))))) stF ∧
          stF.attemptsMade = st.attemptsMade + (r + 1 + 1) ∧
          stF.sends = st.sends + (r + 1 + 1) := by
      intro le st1 h1 h2 h3 h4 h5 h6 h7 h8 h9 h10
      have hres := ih (attempt + 1) le st1
        (by rw [h1, hAnow, h2]; simp only [Nat.add_sub_cancel, if_pos (Nat.succ_pos attempt)]
            omega)
        (by rw [h1, hAnow, h3]; simp only [Nat.add_sub_cancel, if_pos (Nat.succ_pos attempt)]
            omega)
        (by rw [h8]; exact htok)
        (by rw [h1, hAnow, h8]; simp only [Nat.add_sub_cancel, if_pos (Nat.succ_pos attempt)]
            omega)
        (by omega)
        (by omega)
        (by intro k hk
            rw [h9]
            have hsk := hscript (k + 1) (by omega)
            have : st.sends + 1 + k = st.sends + (k + 1) := by omega
            rw [this]
            exact hsk)
      obtain ⟨stF, hloop, ha, hs⟩ := hres
      refine ⟨stF, ?_, by omega, by omega⟩
      rw [hloop]
      have heq2 : st1.sends + r = st.sends + (r + 1) := by omega
      rw [heq2]
    rcases hscript 0 (Nat.zero_le _) with h0 | ⟨ra, pok, body, heq, hra⟩ |
      ⟨c, ra, pok, body, heq, hc⟩
    · simp only [Nat.add_zero] at h0
      rw [h0]
      exact hstep (some (.transport true))
        { stA with
          attemptsMade := stA.attemptsMade + 1
          limiter := { stA.limiter with
                        minuteCount := stA.limiter.minuteCount + 1
                        dayCount := stA.limiter.dayCount + 1 }
          sends := st.sends + 1 }
        rfl (by simp [hAlim]) (by simp [hAlim]) (by simp [hAlim]) (by simp [hAlim])
        (by simp [hAlim]) (by simp [hAlim]) hAtm rfl (by simp [hAatt])
    · simp only [Nat.add_zero] at heq
      rw [heq]
      have hup : ∀ (r' : RateLimiter) (t : Int), r'.UpdateFromResponse ra t = r' := by
        intro r' t; simp [RateLimiter.UpdateFromResponse, hra]
      simp only [hup]
      exact hstep (some (.api 429 body))
        { stA with
          attemptsMade := stA.attemptsMade + 1
          limiter := { stA.limiter with
                        minuteCount := stA.limiter.minuteCount + 1
                        dayCount := stA.limiter.dayCount + 1 }
          sends := st.sends + 1 }
        rfl (by simp [hAlim]) (by simp [hAlim]) (by simp [hAlim]) (by simp [hAlim])
        (by simp [hAlim]) (by simp [hAlim]) hAtm rfl (by simp [hAatt])
    · simp only [Nat.add_zero] at heq
      rw [heq]
      rcases hc with rfl | rfl | rfl | rfl
      · exact hstep (some (.api 500 body))
          { stA with
            attemptsMade := stA.attemptsMade + 1
            limiter := { stA.limiter with
                          minuteCount := stA.limiter.minuteCount + 1
                          dayCount := stA.limiter.dayCount + 1 }
            sends := st.sends + 1 }
          rfl (by simp [hAlim]) (by simp [hAlim]) (by simp [hAlim]) (by simp [hAlim])
          (by simp [hAlim]) (by simp [hAlim]) hAtm rfl (by simp [hAatt])
      · exact hstep (some (.api 502 body))
          { stA with
            attemptsMade := stA.attemptsMade + 1
            limiter := { stA.limiter with
                          minuteCount := stA.limiter.minuteCount + 1
                          dayCount := stA.limiter.dayCount + 1 }
            sends := st.sends + 1 }
          rfl (by simp [hAlim]) (by simp [hAlim]) (by simp [hAlim]) (by simp [hAlim])
          (by simp [hAlim]) (by simp [hAlim]) hAtm rfl (by simp [hAatt])
      · exact hstep (some (.api 503 body))
          { stA with
            attemptsMade := stA.attemptsMade + 1
            limiter := { stA.limiter with
                          minuteCount := stA.limiter.minuteCount + 1
                          dayCount := stA.limiter.dayCount + 1 }
            sends := st.sends + 1 }
          rfl (by simp [hAlim]) (by simp [hAlim]) (by simp [hAlim]) (by simp [hAlim])
          (by simp [hAlim]) (by simp [hAlim]) hAtm rfl (by simp [hAatt])
      · exact hstep (some (.api 504 body))
          { stA with
            attemptsMade := stA.attemptsMade + 1
            limiter := { stA.limiter with
                          minuteCount := stA.limiter.minuteCount + 1
                          dayCount := stA.limiter.dayCount + 1 }
            sends := st.sends + 1 }
          rfl (by simp [hAlim]) (by simp [hAlim]) (by simp [hAlim]) (by simp [hAlim])
          (by simp [hAlim]) (by simp [hAlim]) hAtm rfl (by simp [hAatt])


/-- C1: when every attempt of a top-level doWithRetry call fails with
a retryable non-401 outcome (modelled by a script of such responses),
and the quota windows, headroom and token outlast the run, exactly
maxRetries + 1 attempts are performed (attempt indices 0..maxRetries),
each issuing one send, and the error of the last response observed is
returned; in particular with maxRetries = 3 and 503 on every attempt,
4 attempts are made and the 503 API error (a server-error outcome) is
returned (see the witness). -/
theorem c1_retry_exhaustion (env : Env) (maxRetries : Nat) (backoff : Nat → Int) (st : CallState)
    (hb : ∀ k, 0 ≤ backoff k)
    (hM : st.now + sumBackoff backoff 0 maxRetries ≤ st.limiter.minuteResetTime)
    (hD : st.now + sumBackoff backoff 0 maxRetries ≤ st.limiter.dayResetTime)
    (htok : st.tm.accessToken ≠ "")
    (hexp : st.now + sumBackoff backoff 0 maxRetries < st.tm.tokenExpiry - 60)
    (hcm : st.limiter.minuteCount + (maxRetries + 1) ≤ st.limiter.minuteLimit)
    (hcd : st.limiter.dayCount + (maxRetries + 1) ≤ st.limiter.dayLimit)
    (hscript : ∀ k, k ≤ maxRetries → retryableScript (env.resp (st.sends + k))) :
    (doWithRetry env maxRetries backoff st false).1 =
      .error (errOfResp (env.resp (st.sends + maxRetries))) ∧
    (doWithRetry env maxRetries backoff st false).2.attemptsMade =
      st.attemptsMade + (maxRetries + 1) ∧
    (doWithRetry env maxRetries backoff st false).2.sends = st.sends + (maxRetries + 1) := by
  obtain ⟨stF, hloop, ha, hs⟩ := attemptLoop_retryable env backoff false hb maxRetries 0 none st
    (by simpa using hM) (by simpa using hD) htok (by simpa using hexp) hcm hcd hscript
  simp only [doWithRetry, hloop]
  exact ⟨trivial, ha, hs⟩


/-- C1 witness: 503 on every attempt with maxRetries = 3 — exactly 4
attempts, and the 503 API error is returned. -/
theorem c1_retry_exhaustion_witness :
    (∀ k : Nat, (0 : Int) ≤ (fun _ : Nat => (1 : Int)) k) ∧
    (∀ k : Nat, k ≤ 3 → retryableScript
      ((fun _ : Nat => HttpResponse.status 503 0 true "down") ((0 : Nat) + k))) ∧
    (doWithRetry
        { resp := fun _ => .status 503 0 true "down", exch := fun _ => .success "t" 3600 }
        3 (fun _ => 1)
        { limiter := NewRateLimiterWithLimits 120 1000 0
          tm := { accessToken := "tok", tokenExpiry := 7200 }
          cache := [], now := 0, attemptsMade := 0, sends := 0, exchanges := 0 }
        false).1 = .error (.api 503 "down") ∧
    (doWithRetry
        { resp := fun _ => .status 503 0 true "down", exch := fun _ => .success "t" 3600 }
        3 (fun _ => 1)
        { limiter := NewRateLimiterWithLimits 120 1000 0
          tm := { accessToken := "tok", tokenExpiry := 7200 }
          cache := [], now := 0, attemptsMade := 0, sends := 0, exchanges := 0 }
        false).2.attemptsMade = 4 :=
  ⟨fun _ => zero_le_one,
   fun k hk => Or.inr (Or.inr ⟨503, 0, true, "down", rfl, Or.inr (Or.inr (Or.inl rfl))⟩),
   (c1_retry_exhaustion
      { resp := fun _ => .status 503 0 true "down", exch := fun _ => .success "t" 3600 }
      3 (fun _ => 1)
      { limiter := NewRateLimiterWithLimits 120 1000 0
        tm := { accessToken := "tok", tokenExpiry := 7200 }
        cache := [], now := 0, attemptsMade := 0, sends := 0, exchanges := 0 }
      (fun _ => zero_le_one) (by decide) (by decide) (by decide) (by decide)
      (by decide) (by decide)
      (fun k hk => Or.inr (Or.inr ⟨503, 0, true, "down", rfl, Or.inr (Or.inr (Or.inl rfl))⟩))).1,
   (c1_retry_exhaustion
      { resp := fun _ => .status 503 0 true "down", exch := fun _ => .success "t" 3600 }
      3 (fun _ => 1)
      { limiter := NewRateLimiterWithLimits 120 1000 0
        tm := { accessToken := "tok", tokenExpiry := 7200 }
        cache := [], now := 0, attemptsMade := 0, sends := 0, exchanges := 0 }
      (fun _ => zero_le_one) (by decide) (by decide) (by decide) (by decide)
      (by decide) (by decide)
      (fun k hk => Or.inr (Or.inr ⟨503, 0, true, "down", rfl, Or.inr (Or.inr (Or.inl rfl))⟩))).2.1⟩


/-- C9: an attempt whose HTTP response is 2xx but whose body fails to
deserialize returns the parse error immediately: whatever the attempt
index and however much retry budget remains (`rem` is arbitrary), the
loop ends right there with `.parseFailure`, having made exactly this
one further attempt and one further send. -/
theorem c9_parse_failure_terminal (env : Env) (backoff : Nat → Int) (isR : Bool)
    (rem attempt : Nat) (lastErr : Option DKError) (st stA : CallState)
    (hstA : stA = if attempt > 0 then { st with now := st.now + backoff (attempt - 1) } else st)
    (hm : ¬ stA.now > stA.limiter.minuteResetTime) (hd : ¬ stA.now > stA.limiter.dayResetTime)
    (hcm : stA.limiter.minuteCount < stA.limiter.minuteLimit)
    (hcd : stA.limiter.dayCount < stA.limiter.dayLimit)
    (htok : tokenValid stA.tm stA.now = true)
    (code ra : Int) (body : String)
    (hcode : 200 ≤ code) (hcode2 : code < 300)
    (hresp : env.resp stA.sends = .status code ra false body) :
    attemptLoop env backoff isR (rem + 1) attempt lastErr st =
      .done (.error .parseFailure) (doOnce env stA).st ∧
    (doOnce env stA).st.attemptsMade = stA.attemptsMade + 1 ∧
    (doOnce env stA).st.sends = stA.sends + 1 := by
  have h429 : (code == 429) = false := by
    rw [beq_eq_false_iff_ne]; omega
  have h401 : (code == 401) = false := by
    rw [beq_eq_false_iff_ne]; omega
  have hrange : (decide (code < 200) || decide (code ≥ 300)) = false := by
    simp; omega
  have hdo := doOnce_response env stA hm hd hcm hcd htok
  rw [hresp] at hdo
  simp only [h429, h401, hrange, Bool.false_eq_true, if_false] at hdo
  constructor
  · simp only [attemptLoop, ← hstA]
    rw [hdo]
    simp [h401]
  · rw [hdo]
    exact ⟨rfl, rfl⟩


/-- C9 witness: a 200 with an undeserializable body on the first
attempt of a budget of 4 — terminal parse failure after exactly one
attempt. -/
theorem c9_parse_failure_terminal_witness :
    (200 : Int) ≤ 200 ∧ (200 : Int) < 300 ∧
    tokenValid { accessToken := "tok", tokenExpiry := 7200 } 0 = true ∧
    attemptLoop
      { resp := fun _ => .status 200 0 false "bad", exch := fun _ => .success "t" 3600 }
      (fun _ => 1) false (3 + 1) 0 none
      { limiter := NewRateLimiterWithLimits 120 1000 0
        tm := { accessToken := "tok", tokenExpiry := 7200 }
        cache := [], now := 0, attemptsMade := 0, sends := 0, exchanges := 0 } =
      .done (.error .parseFailure)
        (doOnce
          { resp := fun _ => .status 200 0 false "bad", exch := fun _ => .success "t" 3600 }
          { limiter := NewRateLimiterWithLimits 120 1000 0
            tm := { accessToken := "tok", tokenExpiry := 7200 }
            cache := [], now := 0, attemptsMade := 0, sends := 0, exchanges := 0 }).st ∧
    (doOnce
      { resp := fun _ => .status 200 0 false "bad", exch := fun _ => .success "t" 3600 }
      { limiter := NewRateLimiterWithLimits 120 1000 0
        tm := { accessToken := "tok", tokenExpiry := 7200 }
        cache := [], now := 0, attemptsMade := 0, sends := 0, exchanges := 0 }).st.attemptsMade = 1 :=
  ⟨by decide, by decide, by decide,
   (c9_parse_failure_terminal
      { resp := fun _ => .status 200 0 false "bad", exch := fun _ => .success "t" 3600 }
      (fun _ => 1) false 3 0 none
      { limiter := NewRateLimiterWithLimits 120 1000 0
        tm := { accessToken := "tok", tokenExpiry := 7200 }
        cache := [], now := 0, attemptsMade := 0, sends := 0, exchanges := 0 }
      _ (by simp) (by decide) (by decide) (by decide) (by decide) (by decide)
      200 0 "bad" (by decide) (by decide) rfl).1,
   (c9_parse_failure_terminal
      { resp := fun _ => .status 200 0 false "bad", exch := fun _ => .success "t" 3600 }
      (fun _ => 1) false 3 0 none
      { limiter := NewRateLimiterWithLimits 120 1000 0
        tm := { accessToken := "tok", tokenExpiry := 7200 }
        cache := [], now := 0, attemptsMade := 0, sends := 0, exchanges := 0 }
      _ (by simp) (by decide) (by decide) (by decide) (by decide) (by decide)
      200 0 "bad" (by decide) (by decide) rfl).2.1⟩


/-- Helper: when the rate-limiter gate passes but the cached token is
stale, doOnce refreshes through one successful token exchange (storing
the new token with expiry now + expiresIn and counting one exchange)
and then proceeds to the send exactly as with a cached token. -/
theorem doOnce_exchange (env : Env) (st : CallState)
    (hm : ¬ st.now > st.limiter.minuteResetTime) (hd : ¬ st.now > st.limiter.dayResetTime)
    (hcm : st.limiter.minuteCount < st.limiter.minuteLimit)
    (hcd : st.limiter.dayCount < st.limiter.dayLimit)
    (htok : tokenValid st.tm st.now = false)
    (tok : String) (tin : Int)
    (hexch : env.exch st.exchanges = .success tok tin) :
    doOnce env st =
      (let st1 : CallState :=
        { st with
          attemptsMade := st.attemptsMade + 1
          limiter := { st.limiter with
                        minuteCount := st.limiter.minuteCount + 1
                        dayCount := st.limiter.dayCount + 1 }
          tm := { accessToken := tok, tokenExpiry := st.now + tin }
          exchanges := st.exchanges + 1
          sends := st.sends + 1 }
      match env.resp st.sends with
      | .transportErr t => ⟨0, shouldRetry (some t) 0, some (.transport t), none, st1⟩
      | .status code ra pok body =>
        if code == 429 then
          ⟨429, true, some (.api 429 body), none,
            { st1 with limiter := st1.limiter.UpdateFromResponse ra st1.now }⟩
        else if code == 401 then ⟨401, false, some (.api 401 body), none, st1⟩
        else if code < 200 || code ≥ 300 then
          ⟨code, shouldRetry none code, some (.api code body), none, st1⟩
        else if pok then ⟨code, false, none, some body, st1⟩
        else ⟨code, false, some .parseFailure, none, st1⟩) := by
  have hnm : ¬ st.limiter.minuteCount ≥ st.limiter.minuteLimit := by omega
  have hnd : ¬ st.limiter.dayCount ≥ st.limiter.dayLimit := by omega
  have hallow : st.limiter.Allow st.now =
      (none, { st.limiter with
                minuteCount := st.limiter.minuteCount + 1
                dayCount := st.limiter.dayCount + 1 }) := by
    simp only [RateLimiter.Allow, if_neg hm, if_neg hd, if_neg hnm, if_neg hnd]
  simp only [doOnce, hallow, tokenManager.getToken, tokenManager.refreshToken, htok,
    Bool.false_eq_true, if_false, hexch]
  cases henv : env.resp st.sends with
  | transportErr t => simp
  | status code ra pok body => simp


/-- C2: a 401 on a call that has not yet taken the re-authentication
path invalidates the cached credential and restarts the whole request
loop exactly once with a fresh attempt budget and a freshly exchanged
credential; a 401 received during the restarted call is terminal, so
the two-401 scenario returns the second 401 as an API error after
exactly 2 attempts and exactly 1 token exchange.  The final conjunct
states the terminality in general: with the re-authentication flag
already set, any attempt answered 401 ends the loop immediately with
that error, never restarting again. -/
theorem c2_reauth_once (env : Env) (maxRetries : Nat) (backoff : Nat → Int) (st : CallState)
    (hm : ¬ st.now > st.limiter.minuteResetTime) (hd : ¬ st.now > st.limiter.dayResetTime)
    (hcm : st.limiter.minuteCount + 2 ≤ st.limiter.minuteLimit)
    (hcd : st.limiter.dayCount + 2 ≤ st.limiter.dayLimit)
    (htok : tokenValid st.tm st.now = true)
    (tok : String) (tin : Int)
    (hexch : env.exch st.exchanges = .success tok tin)
    (ra1 ra2 : Int) (pok1 pok2 : Bool) (b1 b2 : String)
    (hr1 : env.resp st.sends = .status 401 ra1 pok1 b1)
    (hr2 : env.resp (st.sends + 1) = .status 401 ra2 pok2 b2) :
    (doWithRetry env maxRetries backoff st false).1 = .error (.api 401 b2) ∧
    (doWithRetry env maxRetries backoff st false).2.attemptsMade = st.attemptsMade + 2 ∧
    (doWithRetry env maxRetries backoff st false).2.sends = st.sends + 2 ∧
    (doWithRetry env maxRetries backoff st false).2.exchanges = st.exchanges + 1 ∧
    (doWithRetry env maxRetries backoff st false).2.tm =
      { accessToken := tok, tokenExpiry := st.now + tin } ∧
    (∀ (rem attempt : Nat) (lastErr : Option DKError) (st' stA : CallState),
      stA = (if attempt > 0 then { st' with now := st'.now + backoff (attempt - 1) } else st') →
      ¬ stA.now > stA.limiter.minuteResetTime → ¬ stA.now > stA.limiter.dayResetTime →
      stA.limiter.minuteCount < stA.limiter.minuteLimit →
      stA.limiter.dayCount < stA.limiter.dayLimit →
      tokenValid stA.tm stA.now = true →
      ∀ (ra : Int) (pok : Bool) (b : String), env.resp stA.sends = .status 401 ra pok b →
      attemptLoop env backoff true (rem + 1) attempt lastErr st' =
        .done (.error (.api 401 b)) (doOnce env stA).st) := by
  have hdo1 := doOnce_response env st hm hd (by omega) (by omega) htok
  rw [hr1] at hdo1
  simp only [show ((401 : Int) == 429) = false from rfl,
    show ((401 : Int) == 401) = true from rfl, Bool.false_eq_true, if_false, if_true] at hdo1
  have hloop1 : attemptLoop env backoff false (maxRetries + 1) 0 none st =
      .restart401
        { limiter := { st.limiter with
                        minuteCount := st.limiter.minuteCount + 1
                        dayCount := st.limiter.dayCount + 1 }
          tm := { accessToken := "", tokenExpiry := 0 }
          cache := st.cache
          now := st.now
          attemptsMade := st.attemptsMade + 1
          sends := st.sends + 1
          exchanges := st.exchanges } := by
    simp only [attemptLoop, gt_iff_lt, lt_self_iff_false, if_false]
    rw [hdo1]
    rfl
  set stB : CallState :=
    { limiter := { st.limiter with
                    minuteCount := st.limiter.minuteCount + 1
                    dayCount := st.limiter.dayCount + 1 }
      tm := { accessToken := "", tokenExpiry := 0 }
      cache := st.cache
      now := st.now
      attemptsMade := st.attemptsMade + 1
      sends := st.sends + 1
      exchanges := st.exchanges } with hstB
  have hmB : ¬ stB.now > stB.limiter.minuteResetTime := by simp [hstB]; omega
  have hdB : ¬ stB.now > stB.limiter.dayResetTime := by simp [hstB]; omega
  have hcmB : stB.limiter.minuteCount < stB.limiter.minuteLimit := by simp [hstB]; omega
  have hcdB : stB.limiter.dayCount < stB.limiter.dayLimit := by simp [hstB]; omega
  have htokB : tokenValid stB.tm stB.now = false := by simp [hstB, tokenValid]
  have hexchB : env.exch stB.exchanges = .success tok tin := hexch
  have hdo2 := doOnce_exchange env stB hmB hdB hcmB hcdB htokB tok tin hexchB
  rw [show stB.sends = st.sends + 1 from rfl, hr2] at hdo2
  simp only [show ((401 : Int) == 429) = false from rfl,
    show ((401 : Int) == 401) = true from rfl, Bool.false_eq_true, if_false, if_true] at hdo2
  have hloop2 : attemptLoop env backoff true (maxRetries + 1) 0 none stB =
      .done (.error (.api 401 b2)) (doOnce env stB).st := by
    simp only [attemptLoop, gt_iff_lt, lt_self_iff_false, if_false]
    rw [hdo2]
    rfl
  refine ⟨?_, ?_, ?_, ?_, ?_, ?_⟩
  · simp only [doWithRetry, hloop1, hloop2, hdo2]
  · simp only [doWithRetry, hloop1, hloop2, hdo2]
  · simp only [doWithRetry, hloop1, hloop2, hdo2]
  · simp only [doWithRetry, hloop1, hloop2, hdo2]
  · simp only [doWithRetry, hloop1, hloop2, hdo2]
  · intro rem attempt lastErr st' stA hstA hmA hdA hcmA hcdA htokA ra pok b hresp
    have hdoA := doOnce_response env stA hmA hdA hcmA hcdA htokA
    rw [hresp] at hdoA
    simp only [show ((401 : Int) == 429) = false from rfl,
      show ((401 : Int) == 401) = true from rfl, Bool.false_eq_true, if_false, if_true] at hdoA
    simp only [attemptLoop, ← hstA]
    rw [hdoA]
    rfl


/-- C2 witness: 401 on every send, maxRetries = 3 — the call makes
exactly 2 attempts, 1 token exchange, and returns the 401 API error. -/
theorem c2_reauth_once_witness :
    tokenValid { accessToken := "tok", tokenExpiry := 7200 } 0 = true ∧
    (doWithRetry
        { resp := fun _ => .status 401 0 true "unauth", exch := fun _ => .success "fresh" 3600 }
        3 (fun _ => 1)
        { limiter := NewRateLimiterWithLimits 120 1000 0
          tm := { accessToken := "tok", tokenExpiry := 7200 }
          cache := [], now := 0, attemptsMade := 0, sends := 0, exchanges := 0 }
        false).1 = .error (.api 401 "unauth") ∧
    (doWithRetry
        { resp := fun _ => .status 401 0 true "unauth", exch := fun _ => .success "fresh" 3600 }
        3 (fun _ => 1)
        { limiter := NewRateLimiterWithLimits 120 1000 0
          tm := { accessToken := "tok", tokenExpiry := 7200 }
          cache := [], now := 0, attemptsMade := 0, sends := 0, exchanges := 0 }
        false).2.attemptsMade = 2 ∧
    (doWithRetry
        { resp := fun _ => .status 401 0 true "unauth", exch := fun _ => .success "fresh" 3600 }
        3 (fun _ => 1)
        { limiter := NewRateLimiterWithLimits 120 1000 0
          tm := { accessToken := "tok", tokenExpiry := 7200 }
          cache := [], now := 0, attemptsMade := 0, sends := 0, exchanges := 0 }
        false).2.exchanges = 1 :=
  ⟨by decide,
   (c2_reauth_once
      { resp := fun _ => .status 401 0 true "unauth", exch := fun _ => .success "fresh" 3600 }
      3 (fun _ => 1)
      { limiter := NewRateLimiterWithLimits 120 1000 0
        tm := { accessToken := "tok", tokenExpiry := 7200 }
        cache := [], now := 0, attemptsMade := 0, sends := 0, exchanges := 0 }
      (by decide) (by decide) (by decide) (by decide) (by decide)
      "fresh" 3600 rfl 0 0 true true "unauth" "unauth" rfl rfl).1,
   (c2_reauth_once
      { resp := fun _ => .status 401 0 true "unauth", exch := fun _ => .success "fresh" 3600 }
      3 (fun _ => 1)
      { limiter := NewRateLimiterWithLimits 120 1000 0
        tm := { accessToken := "tok", tokenExpiry := 7200 }
        cache := [], now := 0, attemptsMade := 0, sends := 0, exchanges := 0 }
      (by decide) (by decide) (by decide) (by decide) (by decide)
      "fresh" 3600 rfl 0 0 true true "unauth" "unauth" rfl rfl).2.1,
   (c2_reauth_once
      { resp := fun _ => .status 401 0 true "unauth", exch := fun _ => .success "fresh" 3600 }
      3 (fun _ => 1)
      { limiter := NewRateLimiterWithLimits 120 1000 0
        tm := { accessToken := "tok", tokenExpiry := 7200 }
        cache := [], now := 0, attemptsMade := 0, sends := 0, exchanges := 0 }
      (by decide) (by decide) (by decide) (by decide) (by decide)
      "fresh" 3600 rfl 0 0 true true "unauth" "unauth" rfl rfl).2.2.2.1⟩


/-- Helper: when the rate-limiter gate rejects the attempt, doOnce
returns the rate-limit error as non-retryable with status 0, without
touching the token, the send counter or the exchange counter. -/
theorem doOnce_gate (env : Env) (st : CallState) (e : RateLimitError) (r' : RateLimiter)
    (hallow : st.limiter.Allow st.now = (some e, r')) :
    doOnce env st =
      ⟨0, false, some (.rateLimit e), none,
        { st with attemptsMade := st.attemptsMade + 1, limiter := r' }⟩ := by
  simp only [doOnce, hallow]

/-- Helper: a failed attempt with a retryable, non-401 outcome and
fuel remaining continues the loop at the next attempt index with the
attempt's error as the last error. -/
theorem attemptLoop_continue (env : Env) (backoff : Nat → Int) (isR : Bool)
    (f attempt : Nat) (lastErr : Option DKError) (st' stA2 stX : CallState)
    (hstA2 : stA2 = if attempt > 0 then { st' with now := st'.now + backoff (attempt - 1) } else st')
    (code : Int) (err : DKError) (res : Option String)
    (hdo : doOnce env stA2 = ⟨code, true, some err, res, stX⟩)
    (hcode : (code == 401) = false)
    (hf : (f == 0) = false) :
    attemptLoop env backoff isR (f + 1) attempt lastErr st' =
      attemptLoop env backoff isR f (attempt + 1) (some err) stX := by
  simp only [attemptLoop, ← hstA2]
  rw [hdo]
  simp [hcode, hf]

/-- Helper: when the next attempt's pre-flight rate-limiter gate
rejects it, the loop ends immediately with that rate-limit error, for
any remaining budget: quota exhaustion is not retried. -/
theorem attemptLoop_gate_terminal (env : Env) (backoff : Nat → Int) (isR : Bool)
    (rem attempt : Nat) (lastErr : Option DKError) (st' stA2 : CallState)
    (hstA2 : stA2 = if attempt > 0 then { st' with now := st'.now + backoff (attempt - 1) } else st')
    (e : RateLimitError) (r' : RateLimiter)
    (hallow : stA2.limiter.Allow stA2.now = (some e, r')) :
    attemptLoop env backoff isR (rem + 1) attempt lastErr st' =
      .done (.error (.rateLimit e))
        { stA2 with attemptsMade := stA2.attemptsMade + 1, limiter := r' } := by
  simp only [attemptLoop, ← hstA2]
  rw [doOnce_gate env stA2 e r' hallow]
  rfl


/-- C10: an attempt answered 429 with a positive Retry-After n is
classified retryable, but UpdateFromResponse forces the minute window
shut until now + n; if the backoff slept before the next attempt is at
most n, that next attempt is rejected by the rate-limiter pre-flight
gate and the call returns the minute-window RateLimitError immediately
(regardless of the remaining budget `rem`), with no second send. -/
theorem c10_retry_after_gate (env : Env) (backoff : Nat → Int) (isR : Bool)
    (rem attempt : Nat) (lastErr : Option DKError) (st stA : CallState)
    (hstA : stA = if attempt > 0 then { st with now := st.now + backoff (attempt - 1) } else st)
    (hm : ¬ stA.now > stA.limiter.minuteResetTime) (hd : ¬ stA.now > stA.limiter.dayResetTime)
    (hcm : stA.limiter.minuteCount < stA.limiter.minuteLimit)
    (hcd : stA.limiter.dayCount < stA.limiter.dayLimit)
    (htok : tokenValid stA.tm stA.now = true)
    (n : Int) (pok : Bool) (b : String)
    (hn : 0 < n)
    (hresp : env.resp stA.sends = .status 429 n pok b)
    (hble : backoff attempt ≤ n)
    (hday2 : ¬ stA.now + backoff attempt > stA.limiter.dayResetTime) :
    (doOnce env stA).retryable = true ∧
    ∃ stF : CallState,
      attemptLoop env backoff isR (rem + 1 + 1) attempt lastErr st =
        .done (.error (.rateLimit { Limit := stA.limiter.minuteLimit, Remaining := 0,
                                    ResetAt := stA.now + n, Ty := "minute" })) stF ∧
      stF.attemptsMade = stA.attemptsMade + 2 ∧
      stF.sends = stA.sends + 1 := by
  have hnle : ¬ n ≤ 0 := by omega
  have hdo1 : doOnce env stA = ⟨429, true, some (.api 429 b), none,
      { limiter := { minuteCount := stA.limiter.minuteLimit
                     minuteResetTime := stA.now + n
                     dayCount := stA.limiter.dayCount + 1
                     dayResetTime := stA.limiter.dayResetTime
                     minuteLimit := stA.limiter.minuteLimit
                     dayLimit := stA.limiter.dayLimit }
        tm := stA.tm
        cache := stA.cache
        now := stA.now
        attemptsMade := stA.attemptsMade + 1
        sends := stA.sends + 1
        exchanges := stA.exchanges }⟩ := by
    rw [doOnce_response env stA hm hd hcm hcd htok, hresp]
    simp only [show ((429 : Int) == 429) = true from rfl, if_true]
    simp [RateLimiter.UpdateFromResponse, hnle]
  refine ⟨by rw [hdo1], ?_⟩
  have hcont := attemptLoop_continue env backoff isR (rem + 1) attempt lastErr st stA _
    hstA 429 (.api 429 b) none hdo1 rfl rfl
  rw [hcont]
  have hgate := attemptLoop_gate_terminal env backoff isR rem (attempt + 1)
    (some (.api 429 b))
    { limiter := { minuteCount := stA.limiter.minuteLimit
                   minuteResetTime := stA.now + n
                   dayCount := stA.limiter.dayCount + 1
                   dayResetTime := stA.limiter.dayResetTime
                   minuteLimit := stA.limiter.minuteLimit
                   dayLimit := stA.limiter.dayLimit }
      tm := stA.tm
      cache := stA.cache
      now := stA.now
      attemptsMade := stA.attemptsMade + 1
      sends := stA.sends + 1
      exchanges := stA.exchanges }
    { limiter := { minuteCount := stA.limiter.minuteLimit
                   minuteResetTime := stA.now + n
                   dayCount := stA.limiter.dayCount + 1
                   dayResetTime := stA.limiter.dayResetTime
                   minuteLimit := stA.limiter.minuteLimit
                   dayLimit := stA.limiter.dayLimit }
      tm := stA.tm
      cache := stA.cache
      now := stA.now + backoff attempt
      attemptsMade := stA.attemptsMade + 1
      sends := stA.sends + 1
      exchanges := stA.exchanges }
    (by simp)
    { Limit := stA.limiter.minuteLimit, Remaining := 0,
      ResetAt := stA.now + n, Ty := "minute" }
    { minuteCount := stA.limiter.minuteLimit
      minuteResetTime := stA.now + n
      dayCount := stA.limiter.dayCount + 1
      dayResetTime := stA.limiter.dayResetTime
      minuteLimit := stA.limiter.minuteLimit
      dayLimit := stA.limiter.dayLimit }
    (by
      have := Allow_minute_full
        { minuteCount := stA.limiter.minuteLimit
          minuteResetTime := stA.now + n
          dayCount := stA.limiter.dayCount + 1
          dayResetTime := stA.limiter.dayResetTime
          minuteLimit := stA.limiter.minuteLimit
          dayLimit := stA.limiter.dayLimit }
        (stA.now + backoff attempt)
        (by simp only [not_lt, gt_iff_lt]; omega)
        (by simpa using hday2)
        (by simp)
      simpa using this)
  rw [hgate]
  exact ⟨_, rfl, rfl, rfl⟩


/-- C10 witness: 429 with Retry-After 30 and backoff 1 — the 429 is
retryable, yet the call ends after 2 attempts and a single send with
the minute-tagged rate-limit error resetting at 30. -/
theorem c10_retry_after_gate_witness :
    (0 : Int) < 30 ∧ (1 : Int) ≤ 30 ∧
    (doOnce
      { resp := fun _ => .status 429 30 true "rl", exch := fun _ => .success "t" 3600 }
      { limiter := NewRateLimiterWithLimits 120 1000 0
        tm := { accessToken := "tok", tokenExpiry := 7200 }
        cache := [], now := 0, attemptsMade := 0, sends := 0, exchanges := 0 }).retryable = true ∧
    (∃ stF : CallState,
      attemptLoop
        { resp := fun _ => .status 429 30 true "rl", exch := fun _ => .success "t" 3600 }
        (fun _ => 1) false (2 + 1 + 1) 0 none
        { limiter := NewRateLimiterWithLimits 120 1000 0
          tm := { accessToken := "tok", tokenExpiry := 7200 }
          cache := [], now := 0, attemptsMade := 0, sends := 0, exchanges := 0 } =
        .done (.error (.rateLimit { Limit := 120, Remaining := 0, ResetAt := 0 + 30,
                                    Ty := "minute" })) stF ∧
      stF.attemptsMade = 2 ∧
      stF.sends = 1) :=
  ⟨by decide, by decide,
   (c10_retry_after_gate
      { resp := fun _ => .status 429 30 true "rl", exch := fun _ => .success "t" 3600 }
      (fun _ => 1) false 2 0 none
      { limiter := NewRateLimiterWithLimits 120 1000 0
        tm := { accessToken := "tok", tokenExpiry := 7200 }
        cache := [], now := 0, attemptsMade := 0, sends := 0, exchanges := 0 }
      { limiter := NewRateLimiterWithLimits 120 1000 0
        tm := { accessToken := "tok", tokenExpiry := 7200 }
        cache := [], now := 0, attemptsMade := 0, sends := 0, exchanges := 0 }
      (by simp) (by decide) (by decide) (by decide) (by decide) (by decide)
      30 true "rl" (by decide) rfl (by decide) (by decide)).1,
   (c10_retry_after_gate
      { resp := fun _ => .status 429 30 true "rl", exch := fun _ => .success "t" 3600 }
      (fun _ => 1) false 2 0 none
      { limiter := NewRateLimiterWithLimits 120 1000 0
        tm := { accessToken := "tok", tokenExpiry := 7200 }
        cache := [], now := 0, attemptsMade := 0, sends := 0, exchanges := 0 }
      { limiter := NewRateLimiterWithLimits 120 1000 0
        tm := { accessToken := "tok", tokenExpiry := 7200 }
        cache := [], now := 0, attemptsMade := 0, sends := 0, exchanges := 0 }
      (by simp) (by decide) (by decide) (by decide) (by decide) (by decide)
      30 true "rl" (by decide) rfl (by decide) (by decide)).2⟩


/-- Helper: a cache hit (an unexpired entry) leaves the store
unchanged: lazy deletion only happens on an expired entry. -/
theorem cacheGet_hit (c : List (String × String × Int)) (key : String) (now : Int) (v : String)
    (h : (cacheGet c key now).1 = some v) : (cacheGet c key now).2 = c := by
  unfold cacheGet at h ⊢
  cases hf : c.find? (fun e => e.1 == key) with
  | none => rw [hf] at h
  | some e =>
    rw [hf] at h
    by_cases hexp : e.2.2 ≤ now
    · simp [hexp] at h
    · simp [hexp]


/-- C6: with caching enabled and a cache present, when the store holds
an unexpired entry for the request's derived key whose bytes
deserialize, KeywordSearch and ProductDetails return that cached value
with the entire call state unchanged — the rate limiter is never
consulted (no Allow, counters intact), the credential manager is never
touched (no token fetch or exchange), and nothing is sent (the send
counter and attempt counter keep their values). -/
theorem c6_cache_hit_frame (env : Env) (maxRetries : Nat) (backoff : Nat → Int)
    (decode : String → Option String) (locale : Locale)
    (keywords : String) (limit searchTTL : Int) (pn : String) (detailsTTL : Int)
    (st : CallState) (v r v2 r2 : String)
    (hkw : (keywords == "") = false)
    (hget : (cacheGet st.cache
      (cacheKeyForSearch locale keywords
        (if limit ≤ 0 then 10 else if limit > 50 then 50 else limit)) st.now).1 = some v)
    (hdec : decode v = some r)
    (hpn : (pn == "") = false)
    (hget2 : (cacheGet st.cache (cacheKeyForDetails locale pn) st.now).1 = some v2)
    (hdec2 : decode v2 = some r2) :
    KeywordSearch env maxRetries backoff true true decode locale keywords limit searchTTL st =
      (.ok r, st) ∧
    ProductDetails env maxRetries backoff true true decode locale pn detailsTTL st =
      (.ok r2, st) := by
  constructor
  · have hc := cacheGet_hit st.cache
      (cacheKeyForSearch locale keywords
        (if limit ≤ 0 then 10 else if limit > 50 then 50 else limit)) st.now v hget
    simp only [KeywordSearch, hkw, Bool.false_eq_true, if_false, Bool.and_self, if_true]
    rw [hget, hc]
    simp only [Option.some_bind]
    rw [hdec]
  · have hc := cacheGet_hit st.cache (cacheKeyForDetails locale pn) st.now v2 hget2
    simp only [ProductDetails, hpn, Bool.false_eq_true, if_false, Bool.and_self, if_true]
    rw [hget2, hc]
    simp only [Option.some_bind]
    rw [hdec2]


/-- C6 witness: both a search and a details lookup served from an
unexpired cache entry, returning the cached bodies with the state
(including limiter counters and credential) exactly unchanged. -/
theorem c6_cache_hit_frame_witness :
    (("stm32" == "") = false) ∧
    (cacheGet
      [("search|US|en|USD|stm32|10", "sresp", 100), ("details|US|en|USD|PN1", "dresp", 100)]
      "search|US|en|USD|stm32|10" 0).1 = some "sresp" ∧
    KeywordSearch
      { resp := fun _ => .status 200 0 true "net", exch := fun _ => .success "t" 3600 }
      3 (fun _ => 1) true true some ⟨"US", "en", "USD"⟩ "stm32" 10 300
      { limiter := NewRateLimiterWithLimits 120 1000 0
        tm := { accessToken := "tok", tokenExpiry := 7200 }
        cache := [("search|US|en|USD|stm32|10", "sresp", 100),
                  ("details|US|en|USD|PN1", "dresp", 100)]
        now := 0, attemptsMade := 0, sends := 0, exchanges := 0 } =
      (.ok "sresp",
       { limiter := NewRateLimiterWithLimits 120 1000 0
         tm := { accessToken := "tok", tokenExpiry := 7200 }
         cache := [("search|US|en|USD|stm32|10", "sresp", 100),
                   ("details|US|en|USD|PN1", "dresp", 100)]
         now := 0, attemptsMade := 0, sends := 0, exchanges := 0 }) ∧
    ProductDetails
      { resp := fun _ => .status 200 0 true "net", exch := fun _ => .success "t" 3600 }
      3 (fun _ => 1) true true some ⟨"US", "en", "USD"⟩ "PN1" 600
      { limiter := NewRateLimiterWithLimits 120 1000 0
        tm := { accessToken := "tok", tokenExpiry := 7200 }
        cache := [("search|US|en|USD|stm32|10", "sresp", 100),
                  ("details|US|en|USD|PN1", "dresp", 100)]
        now := 0, attemptsMade := 0, sends := 0, exchanges := 0 } =
      (.ok "dresp",
       { limiter := NewRateLimiterWithLimits 120 1000 0
         tm := { accessToken := "tok", tokenExpiry := 7200 }
         cache := [("search|US|en|USD|stm32|10", "sresp", 100),
                   ("details|US|en|USD|PN1", "dresp", 100)]
         now := 0, attemptsMade := 0, sends := 0, exchanges := 0 }) :=
  ⟨rfl, rfl,
   (c6_cache_hit_frame
      { resp := fun _ => .status 200 0 true "net", exch := fun _ => .success "t" 3600 }
      3 (fun _ => 1) some ⟨"US", "en", "USD"⟩ "stm32" 10 300 "PN1" 600
      { limiter := NewRateLimiterWithLimits 120 1000 0
        tm := { accessToken := "tok", tokenExpiry := 7200 }
        cache := [("search|US|en|USD|stm32|10", "sresp", 100),
                  ("details|US|en|USD|PN1", "dresp", 100)]
        now := 0, attemptsMade := 0, sends := 0, exchanges := 0 }
      "sresp" "sresp" "dresp" "dresp"
      rfl (by decide) rfl rfl (by decide) rfl).1,
   (c6_cache_hit_frame
      { resp := fun _ => .status 200 0 true "net", exch := fun _ => .success "t" 3600 }
      3 (fun _ => 1) some ⟨"US", "en", "USD"⟩ "stm32" 10 300 "PN1" 600
      { limiter := NewRateLimiterWithLimits 120 1000 0
        tm := { accessToken := "tok", tokenExpiry := 7200 }
        cache := [("search|US|en|USD|stm32|10", "sresp", 100),
                  ("details|US|en|USD|PN1", "dresp", 100)]
        now := 0, attemptsMade := 0, sends := 0, exchanges := 0 }
      "sresp" "sresp" "dresp" "dresp"
      rfl (by decide) rfl rfl (by decide) rfl).2⟩

end Digikey
